import Mathlib

/-!
Shallow embedding of the `mona` library (files `mona/maybe.py`,
`mona/result.py`, `mona/__init__.py`): two algebraic container types
(`Maybe` with variants `Some`/`Nothing`, `Result` with variants `Ok`/`Err`),
their combinators, the exception-capture adapter `result`, the guard
predicates and the cross-type converters.

The embedding has two levels, both translated from the same source:

* a *structural* level (`MaybeV`, `ResultV`): a container is its variant tag
  plus payload, object identity erased.  Adequate for every claim about
  payload/variant content.
* an *identity* level (`MaybeObj`, `ResultObj`): each container instance
  additionally carries the Python object id it was allocated at.  None of the
  classes `Some`, `Nothing`, `Ok`, `Err` defines `__eq__` (checked against the
  whole of `maybe.py` / `result.py`), so Python `==` on them is the inherited
  `object.__eq__`, i.e. object identity; combinators that execute
  `Some(...)` / `Ok(...)` allocate a fresh object.  This level is needed for
  the claims stated in terms of `==`.

Exceptions are modelled by a small class hierarchy `ExcClass` mirroring the
classes the source mentions (`MaybeError`, `NothingError`, `ResultError`,
and the built-ins involved), with instances `ExcObj` carrying an object id so
that "the very same exception object" is expressible.  Caller-supplied
functions that may raise are embedded as functions into `Except ExcObj _`.
-/

/-- Exception classes occurring in the source: the library's own hierarchy
(`MaybeError(Exception)`, `NothingError(MaybeError)`, `ResultError(Exception)`)
plus the Python built-ins needed by the claims. -/
inductive ExcClass where
  | baseException
  | exception
  | typeError
  | valueError
  | keyError
  | maybeError
  | nothingError
  | resultError
  deriving DecidableEq, Repr

/-- Direct superclass, as declared in Python (`class MaybeError(Exception)`,
`class NothingError(MaybeError)`, `class ResultError(Exception)`; built-ins
as in CPython). -/
def ExcClass.parent : ExcClass → Option ExcClass
  | .baseException => none
  | .exception => some .baseException
  | .typeError => some .exception
  | .valueError => some .exception
  | .keyError => some .exception
  | .maybeError => some .exception
  | .nothingError => some .maybeError
  | .resultError => some .exception

/-- Walk up the superclass chain for at most `n` steps. -/
def ExcClass.subclassAux : Nat → ExcClass → ExcClass → Bool
  | 0, _, _ => false
  | n + 1, c, d =>
    c = d || match c.parent with
      | none => false
      | some p => ExcClass.subclassAux n p d

/-- `c.isSubclass d` is Python's `issubclass(c, d)` on this finite hierarchy
(the chain has depth at most 3, so fuel 8 is exact). -/
def ExcClass.isSubclass (c d : ExcClass) : Bool :=
  ExcClass.subclassAux 8 c d

/-- A concrete exception instance: its Python object id, its class and its
optional single message argument (the only argument shapes the source ever
constructs: `NothingError(msg)`, `ResultError(msg)`, or no argument). -/
structure ExcObj where
  oid : Nat
  cls : ExcClass
  arg : Option String
  deriving DecidableEq, Repr

/-- Plain (non-container) Python values appearing as payloads and arguments:
ints, strings, bools, `None`, and exception instances. -/
inductive PyVal where
  | vInt (n : Int)
  | vStr (s : String)
  | vBool (b : Bool)
  | vNone
  | vExc (e : ExcObj)
  deriving DecidableEq, Repr

/-- Whether a value is exception-like, i.e. an instance of `BaseException`
(the condition Python's `raise ... from v` checks at runtime). -/
def PyVal.isExcLike : PyVal → Bool
  | .vExc _ => true
  | _ => false

/-- Structural view of `Maybe[T]`: the closed sum of the final classes
`Some` (one payload) and `Nothing` (no payload), `maybe.py` lines 100-208. -/
inductive MaybeV (α : Type) where
  | someV (v : α)
  | nothingV
  deriving DecidableEq, Repr

/-- Structural view of `Result[T, E]`: the closed sum of the final classes
`Ok` (success payload) and `Err` (error payload), `result.py` lines 124-281. -/
inductive ResultV (α ε : Type) where
  | okV (v : α)
  | errV (e : ε)
  deriving DecidableEq, Repr

/-- `Some.map` / `Nothing.map` (`maybe.py` 139-140, 192-193): on `Some`,
`return Some(f(self._value))`; on `Nothing`, `return self`.  Pure view, for
caller functions that return normally. -/
def MaybeV.map : MaybeV α → (α → β) → MaybeV β
  | .someV v, f => .someV (f v)
  | .nothingV, _ => .nothingV

/-- `Ok.map` / `Err.map` (`result.py` 163-164, 237-238): on `Ok`,
`return Ok(f(self._value))`; on `Err`, `return self`.  Pure view. -/
def ResultV.map : ResultV α ε → (α → β) → ResultV β ε
  | .okV v, f => .okV (f v)
  | .errV e, _ => .errV e

/-- `Some.and_then` / `Nothing.and_then` (`maybe.py` 126-127, 183-184):
`return f(self._value)` on `Some`, `return self` on `Nothing`.  The caller
function is embedded as `α → Except ExcObj _` so that its raising behaviour
is visible; the method body wraps nothing in `try`. -/
def MaybeV.and_thenE : MaybeV α → (α → Except ExcObj (MaybeV β)) →
    Except ExcObj (MaybeV β)
  | .someV v, f => f v
  | .nothingV, _ => .ok .nothingV

/-- `Some.apply` / `Nothing.apply` (`maybe.py` 129-131, 186-187): on `Some`,
`f(self._value); return self`; on `Nothing`, `return self`. -/
def MaybeV.applyE : MaybeV α → (α → Except ExcObj Unit) →
    Except ExcObj (MaybeV α)
  | .someV v, f =>
    match f v with
    | .ok _ => .ok (.someV v)
    | .error e => .error e
  | .nothingV, _ => .ok .nothingV

/-- `Some.map` / `Nothing.map` with a caller function that may raise. -/
def MaybeV.mapE : MaybeV α → (α → Except ExcObj β) → Except ExcObj (MaybeV β)
  | .someV v, f =>
    match f v with
    | .ok w => .ok (.someV w)
    | .error e => .error e
  | .nothingV, _ => .ok .nothingV

/-- `Some.or_else` / `Nothing.or_else` (`maybe.py` 142-143, 195-196): on
`Some`, `return self` (`f` not invoked); on `Nothing`, `return f()`. -/
def MaybeV.or_elseE : MaybeV α → (Unit → Except ExcObj (MaybeV α)) →
    Except ExcObj (MaybeV α)
  | .someV v, _ => .ok (.someV v)
  | .nothingV, f => f ()

/-- `Maybe.or_use` (`maybe.py` 151-152, 204-205): on `Some`, `return self`;
on `Nothing`, `return Some(value)`.  The bodies contain no call and no
`raise`; the `Except` codomain records that the operation itself never
raises. -/
def MaybeV.or_useE : MaybeV α → α → Except ExcObj (MaybeV α)
  | .someV v, _ => .ok (.someV v)
  | .nothingV, value => .ok (.someV value)

/-- `Maybe.get` (`maybe.py` 136-137, 189-190): `return self._value` on
`Some`, `return default` on `Nothing`; no call, no `raise`. -/
def MaybeV.getE : MaybeV α → α → Except ExcObj α
  | .someV v, _ => .ok v
  | .nothingV, default => .ok default

/-- `Maybe.cast` (`maybe.py` 65-66, 133-134): `typing.cast` is the runtime
identity, so the method returns `self` unchanged for either variant; no call,
no `raise`.  (The reinterpreted type parameter has no runtime content.) -/
def MaybeV.castE : MaybeV α → Except ExcObj (MaybeV α)
  | m => .ok m

/-- `Maybe.transform` (`maybe.py` 92-93): `return f(self)` for either
variant. -/
def MaybeV.transformE : MaybeV α → (MaybeV α → Except ExcObj β) →
    Except ExcObj β
  | m, f => f m

/-- `Ok.and_then` / `Err.and_then` (`result.py` 150-151, 221-222):
`return f(self._value)` on `Ok`, `return self` on `Err`. -/
def ResultV.and_thenE : ResultV α ε → (α → Except ExcObj (ResultV β ε)) →
    Except ExcObj (ResultV β ε)
  | .okV v, f => f v
  | .errV e, _ => .ok (.errV e)

/-- `Ok.apply` / `Err.apply` (`result.py` 153-155, 224-225): on `Ok`,
`f(self._value); return self`; on `Err`, `return self`. -/
def ResultV.applyE : ResultV α ε → (α → Except ExcObj Unit) →
    Except ExcObj (ResultV α ε)
  | .okV v, f =>
    match f v with
    | .ok _ => .ok (.okV v)
    | .error e => .error e
  | .errV e, _ => .ok (.errV e)

/-- `Ok.map` / `Err.map` with a caller function that may raise. -/
def ResultV.mapE : ResultV α ε → (α → Except ExcObj β) →
    Except ExcObj (ResultV β ε)
  | .okV v, f =>
    match f v with
    | .ok w => .ok (.okV w)
    | .error e => .error e
  | .errV e, _ => .ok (.errV e)

/-- `Ok.map_err` / `Err.map_err` (`result.py` 166-167, 240-241): on `Ok`,
`return self`; on `Err`, `return Err(f(self._error))`. -/
def ResultV.map_errE : ResultV α ε → (ε → Except ExcObj φ) →
    Except ExcObj (ResultV α φ)
  | .okV v, _ => .ok (.okV v)
  | .errV e, f =>
    match f e with
    | .ok e2 => .ok (.errV e2)
    | .error ex => .error ex

/-- `Ok.or_else` / `Err.or_else` (`result.py` 169-170, 243-244): on `Ok`,
`return self` (`f` not invoked); on `Err`, `return f(self._error)`. -/
def ResultV.or_elseE : ResultV α ε → (ε → Except ExcObj (ResultV α φ)) →
    Except ExcObj (ResultV α φ)
  | .okV v, _ => .ok (.okV v)
  | .errV e, f => f e

/-- `Result.transform` (`result.py` 116-117): `return f(self)` for either
variant. -/
def ResultV.transformE : ResultV α ε → (ResultV α ε → Except ExcObj β) →
    Except ExcObj β
  | r, f => f r

/-- Outcome of executing a `raise` statement: either an exception of class
`cls` with optional message `arg` and optional cause is raised, or the
`raise ... from cause` statement itself fails with
`TypeError: exception causes must derive from BaseException` because the
`from` operand is neither an exception instance nor `None` (CPython
runtime rule). -/
inductive RaiseResult where
  | raisedExc (cls : ExcClass) (arg : Option String) (cause : Option ExcObj)
  | raiseTypeError
  deriving DecidableEq, Repr

/-- Semantics of `raise Cls(arg) from causeVal`: an exception-instance cause
becomes `__cause__`; `from None` is legal and leaves no cause; any other
operand makes the raise statement itself fail with `TypeError`. -/
def raiseFrom (cls : ExcClass) (arg : Option String) (causeVal : PyVal) :
    RaiseResult :=
  match causeVal with
  | .vExc e => .raisedExc cls arg (some e)
  | .vNone => .raisedExc cls arg none
  | _ => .raiseTypeError

/-- `Err.or_raise` (`result.py` 275-278): `raise ResultError() from
self._error` when `msg is None`, else `raise ResultError(msg) from
self._error`; `e` is the `Err` payload. -/
def errOr_raise (e : PyVal) (msg : Option String) : RaiseResult :=
  raiseFrom ExcClass.resultError msg e

/-- `Err.unwrap` (`result.py` 280-281): `raise ResultError("unwrapped Err")
from self._error`. -/
def errUnwrap (e : PyVal) : RaiseResult :=
  raiseFrom ExcClass.resultError (some "unwrapped Err") e

/-- `Nothing.or_raise` (`maybe.py` 198-199): `raise NothingError if msg is
None else NothingError(msg)` — raising the bare class instantiates it with
no argument; there is no `from` clause. -/
def nothingOr_raise (msg : Option String) : RaiseResult :=
  RaiseResult.raisedExc ExcClass.nothingError msg none

/-- `Nothing.unwrap` (`maybe.py` 207-208): `raise MaybeError("unwrapped
Nothing")`. -/
def nothingUnwrap : RaiseResult :=
  RaiseResult.raisedExc ExcClass.maybeError (some "unwrapped Nothing") none

/-- Whether an outcome is the raising of an absence error, i.e. of an
instance of the Optional container's error hierarchy rooted at
`MaybeError`. -/
def RaiseResult.isAbsenceRaise : RaiseResult → Bool
  | .raisedExc c _ _ => c.isSubclass ExcClass.maybeError
  | .raiseTypeError => false

/-- Whether an outcome is the raising of a failure error, i.e. of an
instance of `ResultError`. -/
def RaiseResult.isFailureRaise : RaiseResult → Bool
  | .raisedExc c _ _ => c.isSubclass ExcClass.resultError
  | .raiseTypeError => false

/-- The message argument carried by a raised exception, if any. -/
def RaiseResult.msgArg : RaiseResult → Option String
  | .raisedExc _ a _ => a
  | .raiseTypeError => none

/-- `result(ex, *result_args)` (`result.py` 284-297): the wrapped function
`g(*args, **kwargs)` runs `f(*args, **kwargs)` inside
`try: return Ok(...) except (ex, *result_args) as e: return Err(e)`.
The call `f(*args, **kwargs)` is embedded by its outcome on those
arguments; Python's `except` clause matches by `isinstance`, i.e. when the
raised object's class is the listed class or one of its subclasses. -/
def result (ex : ExcClass) (result_args : List ExcClass)
    (outcome : Except ExcObj α) : Except ExcObj (ResultV α ExcObj) :=
  match outcome with
  | .ok v => .ok (.okV v)
  | .error e =>
    if (ex :: result_args).any (fun c => e.cls.isSubclass c) then
      .ok (.errV e)
    else
      .error e

/-- A Python value of arbitrary class, for the `isinstance`-based guards:
either an instance of one of the four final container classes, or any
non-container ("foreign") value.  `Some`, `Nothing`, `Ok`, `Err` are
`@final` classes in four disjoint positions of the hierarchy, so shapes
classify instances exactly. -/
inductive PyAny where
  | someA (v : PyVal)
  | nothingA
  | okA (v : PyVal)
  | errA (v : PyVal)
  | plainA (v : PyVal)
  deriving DecidableEq, Repr

/-- `is_some` (`maybe.py` 235-236): `return isinstance(m, Some)`. -/
def is_some : PyAny → Bool
  | .someA _ => true
  | _ => false

/-- `is_nothing` (`maybe.py` 221-222): `return isinstance(m, Nothing)`. -/
def is_nothing : PyAny → Bool
  | .nothingA => true
  | _ => false

/-- `is_ok` (`result.py` 324-325): `return isinstance(r, Ok)`. -/
def is_ok : PyAny → Bool
  | .okA _ => true
  | _ => false

/-- `is_err` (`result.py` 310-311): `return isinstance(r, Err)`. -/
def is_err : PyAny → Bool
  | .errA _ => true
  | _ => false

/-- Whether a value is an instance of any of the four container classes. -/
def PyAny.isContainer : PyAny → Bool
  | .plainA _ => false
  | _ => true

/-- `from_optional` (`__init__.py` 23-24): `return Nothing() if v is None
else Some(v)`. -/
def from_optional (v : PyVal) : MaybeV PyVal :=
  match v with
  | .vNone => .nothingV
  | _ => .someV v

/-- `into_maybe` (`__init__.py` 27-34): `match r: case Ok(v): return
Some(v); case Err(_): return Nothing()`.  The `case _: raise TypeError`
branch is unreachable on the domain `ResultV`, which holds exactly the
`Ok`/`Err` instances. -/
def into_maybe : ResultV α ε → MaybeV α
  | .okV v => .someV v
  | .errV _ => .nothingV

/-- `into_result` (`__init__.py` 37-44): `match m: case Some(v): return
Ok(v); case Nothing(): return Err(None)`.  The `case _: raise TypeError`
branch is unreachable on the domain `MaybeV`. -/
def into_result : MaybeV α → ResultV α PyVal
  | .someV v => .okV v
  | .nothingV => .errV PyVal.vNone

/-- The exit information `(exc_type, exc_val, exc_tb)` passed to `__exit__`:
an exception class, instance and an opaque traceback id, or three `None`s on
normal exit. -/
structure ExcInfo where
  ty : Option ExcClass
  val : Option ExcObj
  tb : Option Nat
  deriving DecidableEq, Repr

/-- Observable context-manager events: one `acq` per call of the payload's
`__enter__`, one `rel info` per call of the payload's `__exit__` with the
exit information it received. -/
inductive CMEvent where
  | acq
  | rel (info : ExcInfo)
  deriving DecidableEq, Repr

/-- A payload implementing the context-manager (acquire/release) protocol:
`acquired` is what its `__enter__` returns, `exitRet` what its `__exit__`
returns given the exit information. -/
structure CMVal where
  acquired : PyVal
  exitRet : ExcInfo → PyVal

/-- `Some.__enter__` / `Nothing.__enter__` (`maybe.py` 109-110, 169-170):
`return Some(self._value.__enter__())` on `Some` — one acquire of the
payload, result rewrapped — and `return self` on `Nothing`, acquiring
nothing.  The event list records the payload-protocol calls made. -/
def maybeEnter : MaybeV CMVal → MaybeV PyVal × List CMEvent
  | .someV r => (.someV r.acquired, [CMEvent.acq])
  | .nothingV => (.nothingV, [])

/-- `Some.__exit__` / `Nothing.__exit__` (`maybe.py` 112-118, 172-178): on
`Some`, `return self._value.__exit__(exc_type, exc_val, exc_tb)` — the exit
information is forwarded verbatim to the payload's release procedure and its
result returned; on `Nothing`, the body is `pass`, returning `None` and
releasing nothing. -/
def maybeExit : MaybeV CMVal → ExcInfo → PyVal × List CMEvent
  | .someV r, info => (r.exitRet info, [CMEvent.rel info])
  | .nothingV, _ => (PyVal.vNone, [])

/-- `Ok.__enter__` / `Err.__enter__` (`result.py` 133-134, 204-205):
`return Ok(self._value.__enter__())` on `Ok`, `return self` on `Err`. -/
def resultEnter : ResultV CMVal ε → ResultV PyVal ε × List CMEvent
  | .okV r => (.okV r.acquired, [CMEvent.acq])
  | .errV e => (.errV e, [])

/-- `Ok.__exit__` / `Err.__exit__` (`result.py` 136-142, 207-213): on `Ok`,
forward the exit information to the payload's `__exit__` and return its
result; on `Err`, the body is `pass`, returning `None`. -/
def resultExit : ResultV CMVal ε → ExcInfo → PyVal × List CMEvent
  | .okV r, info => (r.exitRet info, [CMEvent.rel info])
  | .errV _, _ => (PyVal.vNone, [])

/-- Identity-level view of a `Maybe` instance: the Python object id it lives
at plus its variant and payload.  `Some.__init__` stores the payload in the
single slot `_value`; `Nothing` has no slots. -/
inductive MaybeObj where
  | someM (oid : Nat) (v : PyVal)
  | nothingM (oid : Nat)
  deriving DecidableEq, Repr

/-- Identity-level view of a `Result` instance (slot `_value` for `Ok`,
slot `_error` for `Err`). -/
inductive ResultObj where
  | okR (oid : Nat) (v : PyVal)
  | errR (oid : Nat) (e : PyVal)
  deriving DecidableEq, Repr

/-- Python `==` between two `Maybe` instances.  Neither `Some` nor `Nothing`
defines `__eq__` (no such method anywhere in `maybe.py`), so `a == b` falls
back to `object.__eq__`, which is `a is b`: true exactly when both operands
are the same object, i.e. live at the same object id.  Instances of the two
(final, distinct) classes are necessarily distinct objects. -/
def pyEqMaybe : MaybeObj → MaybeObj → Bool
  | .someM i _, .someM j _ => i == j
  | .nothingM i, .nothingM j => i == j
  | _, _ => false

/-- Python `==` between two `Result` instances; as with `Maybe`, no `__eq__`
is defined anywhere in `result.py`, so `==` is object identity. -/
def pyEqResult : ResultObj → ResultObj → Bool
  | .okR i _, .okR j _ => i == j
  | .errR i _, .errR j _ => i == j
  | _, _ => false

/-- Destructuring `case Some(x)` via `Some.__match_args__ = ("_value",)`
(`maybe.py` 102): matching is on the class and the `_value` slot only — the
object id plays no role. -/
def matchSome : MaybeObj → Option PyVal
  | .someM _ v => some v
  | .nothingM _ => none

/-- Matching `case Nothing()` (`maybe.py` 162-164): class check only. -/
def matchNothing : MaybeObj → Bool
  | .nothingM _ => true
  | .someM _ _ => false

/-- Destructuring `case Ok(x)` via `Ok.__match_args__ = ("_value",)`
(`result.py` 126). -/
def matchOk : ResultObj → Option PyVal
  | .okR _ v => some v
  | .errR _ _ => none

/-- Destructuring `case Err(x)` via `Err.__match_args__ = ("_error",)`
(`result.py` 197). -/
def matchErr : ResultObj → Option PyVal
  | .okR _ _ => none
  | .errR _ e => some e

/-- `Some.map` / `Nothing.map` at the identity level: `Some.map` executes
`Some(f(self._value))`, allocating a fresh object — modelled by an
allocation counter `ctr` holding the next unused object id — while
`Nothing.map` returns `self`, allocating nothing. -/
def MaybeObj.mapAlloc : MaybeObj → (PyVal → PyVal) → Nat → MaybeObj × Nat
  | .someM _ v, f, ctr => (.someM ctr (f v), ctr + 1)
  | .nothingM i, _, ctr => (.nothingM i, ctr)

/-- `Ok.map` / `Err.map` at the identity level: `Ok.map` executes
`Ok(f(self._value))`, allocating a fresh object; `Err.map` returns
`self`. -/
def ResultObj.mapAlloc : ResultObj → (PyVal → PyVal) → Nat → ResultObj × Nat
  | .okR _ v, f, ctr => (.okR ctr (f v), ctr + 1)
  | .errR i e, _, ctr => (.errR i e, ctr)

/-- The identity function, as a caller-supplied `f`. -/
def idPy : PyVal → PyVal := fun v => v

/-- A concrete exception instance used to exercise the theorems below at
concrete inputs. -/
def eDemo : ExcObj := ⟨9, ExcClass.keyError, some "k"⟩

/-- A caller-supplied function that always raises `e`, returning a `Maybe`
otherwise (it never does): used to exercise propagation at concrete
inputs. -/
def alwaysRaiseMaybe (e : ExcObj) : PyVal → Except ExcObj (MaybeV PyVal) :=
  fun _ => Except.error e

/-- A caller-supplied value-returning function that always raises `e`. -/
def alwaysRaiseVal (e : ExcObj) : PyVal → Except ExcObj PyVal :=
  fun _ => Except.error e

/-- A caller-supplied side-effecting function that always raises `e`. -/
def alwaysRaiseUnit (e : ExcObj) : PyVal → Except ExcObj Unit :=
  fun _ => Except.error e

/-- Decidable equality of call outcomes, so that the theorems below can be
evaluated on concrete inputs. -/
instance [DecidableEq ε] [DecidableEq α] : DecidableEq (Except ε α) := fun a b =>
  match a, b with
  | Except.ok x, Except.ok y =>
    if h : x = y then isTrue (congrArg Except.ok h)
    else isFalse (fun hc => h (Except.ok.inj hc))
  | Except.ok _, Except.error _ => isFalse (fun hc => Except.noConfusion hc)
  | Except.error _, Except.ok _ => isFalse (fun hc => Except.noConfusion hc)
  | Except.error x, Except.error y =>
    if h : x = y then isTrue (congrArg Except.error h)
    else isFalse (fun hc => h (Except.error.inj hc))

/-- Claim C1, counterexample.  On the non-exception-like payload `5`, both
`Err(5).unwrap()` and `Err(5).or_raise()` execute `raise ResultError(...)
from 5`, which fails with `TypeError: exception causes must derive from
BaseException`: no `ResultError` is raised at all and nothing embeds the
textual representation of `5`, contradicting the claim that "the call still
raises the failure error, not some other error". -/
theorem C1_counterexample :
    (PyVal.vInt 5).isExcLike = false ∧
    errUnwrap (PyVal.vInt 5) = RaiseResult.raiseTypeError ∧
    RaiseResult.isFailureRaise (errUnwrap (PyVal.vInt 5)) = false ∧
    errOr_raise (PyVal.vInt 5) none = RaiseResult.raiseTypeError ∧
    RaiseResult.isFailureRaise (errOr_raise (PyVal.vInt 5) none) = false := by
  decide

/-- Claim C1, amended.  On `Err(e)`, `or_raise(msg?)` and `unwrap()` raise a
`ResultError` with `e` as its causal origin whenever `e` is exception-like
(as the static bound `E: BaseException` promises), `or_raise` carrying `msg`
and `unwrap` the fixed message `"unwrapped Err"`; for a payload that is
neither exception-like nor `None` the `raise ... from` statement itself
fails with a host `TypeError`, so no failure error is raised and no textual
representation of the payload is embedded; the payload `None` is the one
non-exception value `raise ... from` accepts, yielding a `ResultError` with
no cause. -/
theorem C1_err_raises_chained :
    ∀ (e : ExcObj) (msg : Option String) (v : PyVal),
      errOr_raise (PyVal.vExc e) msg
        = RaiseResult.raisedExc ExcClass.resultError msg (some e) ∧
      errUnwrap (PyVal.vExc e)
        = RaiseResult.raisedExc ExcClass.resultError
            (some "unwrapped Err") (some e) ∧
      RaiseResult.isFailureRaise (errOr_raise (PyVal.vExc e) msg) = true ∧
      RaiseResult.isFailureRaise (errUnwrap (PyVal.vExc e)) = true ∧
      errOr_raise PyVal.vNone msg
        = RaiseResult.raisedExc ExcClass.resultError msg none ∧
      errUnwrap PyVal.vNone
        = RaiseResult.raisedExc ExcClass.resultError
            (some "unwrapped Err") none ∧
      (v.isExcLike = false → v ≠ PyVal.vNone →
        errOr_raise v msg = RaiseResult.raiseTypeError ∧
        errUnwrap v = RaiseResult.raiseTypeError) := by
  intro e msg v
  refine ⟨rfl, rfl, rfl, rfl, rfl, rfl, ?_⟩
  intro hexc hnone
  cases v <;> simp_all [errOr_raise, errUnwrap, raiseFrom, PyVal.isExcLike]

/-- Claim C1, witness: the amended theorem evaluated at the exception-like
payload `eDemo` with message `"boom"`, and at the non-exception-like
payload `"x"`. -/
theorem C1_err_raises_chained_witness :
    errOr_raise (PyVal.vExc eDemo) (some "boom")
      = RaiseResult.raisedExc ExcClass.resultError (some "boom") (some eDemo) ∧
    errUnwrap (PyVal.vStr "x") = RaiseResult.raiseTypeError := by
  have h := C1_err_raises_chained eDemo (some "boom") (PyVal.vStr "x")
  exact ⟨h.1, (h.2.2.2.2.2.2 (by decide) (by decide)).2⟩

/-- Claim C2, counterexample.  `result(Exception)(f)` applied where `f`
raises a `ValueError` instance: `ValueError` is not among the listed types
(the list is exactly `[Exception]`), so the claim says the exception
propagates to the caller unchanged; the code's `except (ex, *result_args)`
clause matches by `isinstance`, catches the subclass instance and returns
`Err(e)` instead. -/
theorem C2_counterexample :
    ExcClass.valueError ∉ [ExcClass.exception] ∧
    result ExcClass.exception []
        (Except.error ⟨7, ExcClass.valueError, some "bad"⟩ :
          Except ExcObj (ResultV PyVal ExcObj))
      ≠ Except.error ⟨7, ExcClass.valueError, some "bad"⟩ ∧
    result ExcClass.exception []
        (Except.error ⟨7, ExcClass.valueError, some "bad"⟩ :
          Except ExcObj (ResultV PyVal ExcObj))
      = Except.ok (ResultV.errV ⟨7, ExcClass.valueError, some "bad"⟩) := by
  decide

/-- Claim C2, amended.  `result(E1, ..., En)(f)` returns `Ok(r)` when `f`
returns `r`; when `f` raises an exception that is an *instance* of one of
the listed types — its class is a listed class or a subclass of one — the
very same exception object is returned as `Err(e)`; when the raised
exception is an instance of none of the listed types it propagates to the
caller unchanged. -/
theorem C2_result_adapter :
    ∀ (ex : ExcClass) (result_args : List ExcClass) (v : PyVal) (e : ExcObj),
      result ex result_args (Except.ok v : Except ExcObj PyVal)
        = Except.ok (ResultV.okV v) ∧
      ((ex :: result_args).any (fun c => e.cls.isSubclass c) = true →
        result ex result_args (Except.error e : Except ExcObj PyVal)
          = Except.ok (ResultV.errV e)) ∧
      ((ex :: result_args).any (fun c => e.cls.isSubclass c) = false →
        result ex result_args (Except.error e : Except ExcObj PyVal)
          = Except.error e) := by
  intro ex result_args v e
  refine ⟨rfl, ?_, ?_⟩ <;> intro h <;> simp [result, h]

/-- Claim C2, witness: the amended theorem evaluated with listed types
`[ValueError]` on a normal return, on a raised `ValueError` instance
(caught) and on a raised `KeyError` instance (propagated). -/
theorem C2_result_adapter_witness :
    result ExcClass.valueError [] (Except.ok (PyVal.vInt 3) :
        Except ExcObj PyVal)
      = Except.ok (ResultV.okV (PyVal.vInt 3)) ∧
    result ExcClass.valueError []
        (Except.error ⟨1, ExcClass.valueError, none⟩ : Except ExcObj PyVal)
      = Except.ok (ResultV.errV ⟨1, ExcClass.valueError, none⟩) ∧
    result ExcClass.valueError []
        (Except.error ⟨2, ExcClass.keyError, none⟩ : Except ExcObj PyVal)
      = Except.error ⟨2, ExcClass.keyError, none⟩ := by
  have h1 := C2_result_adapter ExcClass.valueError [] (PyVal.vInt 3)
    ⟨1, ExcClass.valueError, none⟩
  have h2 := C2_result_adapter ExcClass.valueError [] (PyVal.vInt 3)
    ⟨2, ExcClass.keyError, none⟩
  exact ⟨h1.1, h1.2.1 (by decide), h2.2.2 (by decide)⟩

/-- Claim C3, counterexample.  Two independently constructed containers are
distinct objects (distinct object ids); since none of the four classes
defines `__eq__`, `==` is object identity and each comparison below is
`False`, contradicting `Nothing() == Nothing()`, `Some(x) == Some(y) iff
x == y`, `Ok(x) == Ok(y) iff x == y` and `Err(a) == Err(b) iff a == b` at
equal payloads. -/
theorem C3_counterexample :
    pyEqMaybe (MaybeObj.nothingM 0) (MaybeObj.nothingM 1) = false ∧
    pyEqMaybe (MaybeObj.someM 2 (PyVal.vInt 3))
      (MaybeObj.someM 3 (PyVal.vInt 3)) = false ∧
    pyEqResult (ResultObj.okR 4 (PyVal.vInt 3))
      (ResultObj.okR 5 (PyVal.vInt 3)) = false ∧
    pyEqResult (ResultObj.errR 6 PyVal.vNone)
      (ResultObj.errR 7 PyVal.vNone) = false := by
  decide

/-- Claim C3, amended.  Equality on container values is object identity, not
structural: every container equals itself, two independently constructed
containers (distinct objects, hence distinct object ids) never compare
equal even when their payloads are equal, and values of different variants
are never equal.  Structural access to variant plus payload is instead
provided by pattern matching through `__match_args__`, whose destructuring
is independent of object identity. -/
theorem C3_eq_is_identity :
    ∀ (a : MaybeObj) (b : ResultObj) (i j : Nat) (x y : PyVal),
      pyEqMaybe a a = true ∧
      pyEqResult b b = true ∧
      (i ≠ j → pyEqMaybe (MaybeObj.someM i x) (MaybeObj.someM j y) = false) ∧
      (i ≠ j → pyEqMaybe (MaybeObj.nothingM i) (MaybeObj.nothingM j) = false) ∧
      (i ≠ j → pyEqResult (ResultObj.okR i x) (ResultObj.okR j y) = false) ∧
      (i ≠ j → pyEqResult (ResultObj.errR i x) (ResultObj.errR j y) = false) ∧
      pyEqMaybe (MaybeObj.someM i x) (MaybeObj.nothingM j) = false ∧
      pyEqResult (ResultObj.okR i x) (ResultObj.errR j y) = false ∧
      matchSome (MaybeObj.someM i x) = some x ∧
      matchNothing (MaybeObj.nothingM i) = true ∧
      matchOk (ResultObj.okR i x) = some x ∧
      matchErr (ResultObj.errR i x) = some x := by
  intro a b i j x y
  refine ⟨?_, ?_, ?_, ?_, ?_, ?_, rfl, rfl, rfl, rfl, rfl, rfl⟩
  · cases a <;> simp [pyEqMaybe]
  · cases b <;> simp [pyEqResult]
  all_goals (intro hij; simp [pyEqMaybe, pyEqResult, hij])

/-- Claim C3, witness: the amended theorem evaluated at distinct object ids
0 and 1 with the equal payload `1`, and at a self-comparison. -/
theorem C3_eq_is_identity_witness :
    pyEqMaybe (MaybeObj.someM 0 (PyVal.vInt 1))
      (MaybeObj.someM 1 (PyVal.vInt 1)) = false ∧
    pyEqMaybe (MaybeObj.nothingM 0) (MaybeObj.nothingM 0) = true := by
  have h := C3_eq_is_identity (MaybeObj.nothingM 0) (ResultObj.okR 0 PyVal.vNone)
    0 1 (PyVal.vInt 1) (PyVal.vInt 1)
  exact ⟨h.2.2.1 (by decide), h.1⟩

/-- Claim C4, confirmed.  On `Nothing()`, both `or_raise(msg?)` and
`unwrap()` raise an absence error — an instance of the Optional container's
error hierarchy rooted at `MaybeError` (`or_raise` raises `NothingError`,
carrying `msg` when one is given; `unwrap` raises
`MaybeError("unwrapped Nothing")`).  No other listed Maybe operation raises
an error of its own: on either variant and for every payload and argument,
any raise coming out of `and_then`/`apply`/`map`/`or_else` is a raise of the
caller-supplied function itself (the absent variant never raises there, and
on the present variant the raised exception is exactly the caller
function's), while `or_use`/`get`/`cast` always return normally. -/
theorem C4_absence_errors :
    ∀ (msg : String) (m : MaybeV PyVal) (v d : PyVal) (e : ExcObj)
      (f : PyVal → Except ExcObj (MaybeV PyVal))
      (g : PyVal → Except ExcObj Unit)
      (h : PyVal → Except ExcObj PyVal)
      (k : Unit → Except ExcObj (MaybeV PyVal)),
      RaiseResult.isAbsenceRaise (nothingOr_raise none) = true ∧
      RaiseResult.isAbsenceRaise (nothingOr_raise (some msg)) = true ∧
      (nothingOr_raise (some msg)).msgArg = some msg ∧
      RaiseResult.isAbsenceRaise nothingUnwrap = true ∧
      MaybeV.and_thenE MaybeV.nothingV f ≠ Except.error e ∧
      (MaybeV.and_thenE (MaybeV.someV v) f = Except.error e →
        f v = Except.error e) ∧
      MaybeV.applyE MaybeV.nothingV g ≠ Except.error e ∧
      (MaybeV.applyE (MaybeV.someV v) g = Except.error e →
        g v = Except.error e) ∧
      MaybeV.mapE MaybeV.nothingV h ≠ Except.error e ∧
      (MaybeV.mapE (MaybeV.someV v) h = Except.error e →
        h v = Except.error e) ∧
      MaybeV.or_elseE (MaybeV.someV v) k ≠ Except.error e ∧
      (MaybeV.or_elseE MaybeV.nothingV k = Except.error e →
        k () = Except.error e) ∧
      MaybeV.or_useE m v ≠ Except.error e ∧
      MaybeV.getE m d ≠ Except.error e ∧
      MaybeV.castE m ≠ Except.error e := by
  intro msg m v d e f g h k
  refine ⟨rfl, rfl, rfl, rfl, ?_, ?_, ?_, ?_, ?_, ?_, ?_, ?_, ?_, ?_, ?_⟩
  · exact fun hc => Except.noConfusion hc
  · exact fun hc => hc
  · exact fun hc => Except.noConfusion hc
  · intro hc
    cases hgv : g v with
    | ok u => simp [MaybeV.applyE, hgv] at hc
    | error e2 =>
      simp [MaybeV.applyE, hgv] at hc
      simp [hgv, hc]
  · exact fun hc => Except.noConfusion hc
  · intro hc
    cases hhv : h v with
    | ok u => simp [MaybeV.mapE, hhv] at hc
    | error e2 =>
      simp [MaybeV.mapE, hhv] at hc
      simp [hhv, hc]
  · exact fun hc => Except.noConfusion hc
  · exact fun hc => hc
  · cases m <;> exact fun hc => Except.noConfusion hc
  · cases m <;> exact fun hc => Except.noConfusion hc
  · exact fun hc => Except.noConfusion hc

/-- Claim C4, witness: the raising components of the theorem evaluated at
the concrete message `"gone"`. -/
theorem C4_absence_errors_witness :
    RaiseResult.isAbsenceRaise (nothingOr_raise (some "gone")) = true ∧
    (nothingOr_raise (some "gone")).msgArg = some "gone" ∧
    RaiseResult.isAbsenceRaise nothingUnwrap = true := by
  have h := C4_absence_errors "gone" MaybeV.nothingV PyVal.vNone PyVal.vNone
    eDemo (alwaysRaiseMaybe eDemo) (alwaysRaiseUnit eDemo)
    (alwaysRaiseVal eDemo) (fun _ => Except.ok MaybeV.nothingV)
  exact ⟨h.2.1, h.2.2.1, h.2.2.2.1⟩

/-- Claim C5, counterexample.  `Some(2).map(identity)` executes
`Some(f(self._value))`, allocating a fresh object; since none of the
container classes defines `__eq__`, `==` is object identity and the fresh
object does not compare equal to the original, so `m.map(identity) == m`
fails at `m = Some(2)` (and likewise `Ok(2)`); the allocation counter 1 is
fresh for a heap whose only container lives at object id 0. -/
theorem C5_counterexample :
    pyEqMaybe ((MaybeObj.someM 0 (PyVal.vInt 2)).mapAlloc idPy 1).1
      (MaybeObj.someM 0 (PyVal.vInt 2)) = false ∧
    pyEqResult ((ResultObj.okR 0 (PyVal.vInt 2)).mapAlloc idPy 1).1
      (ResultObj.okR 0 (PyVal.vInt 2)) = false := by
  decide

/-- Claim C5, amended.  The functor laws hold up to structural equivalence
(same variant, equal payload), though not for Python `==`, which is object
identity here: for every container value `m` (either variant of either
container), `m.map(identity)` is structurally equal to `m`, and
`m.map(f).map(g)` is structurally equal to `m.map(compose(g, f))`. -/
theorem C5_functor_structural :
    ∀ {α β γ ε : Type} (m : MaybeV α) (r : ResultV α ε)
      (f : α → β) (g : β → γ),
      MaybeV.map m (fun x => x) = m ∧
      MaybeV.map (MaybeV.map m f) g = MaybeV.map m (fun x => g (f x)) ∧
      ResultV.map r (fun x => x) = r ∧
      ResultV.map (ResultV.map r f) g = ResultV.map r (fun x => g (f x)) := by
  intro α β γ ε m r f g
  refine ⟨?_, ?_, ?_, ?_⟩ <;> cases m <;> cases r <;> rfl

/-- Claim C6, confirmed.  The guard predicates are total functions on
arbitrary values (the embedding of `isinstance`, which never raises): each
returns `true` exactly on instances of its own final container class and
`false` on every other input, including instances of the other three
container classes and arbitrary foreign non-container values. -/
theorem C6_guards_classify :
    ∀ (w x : PyVal),
      is_some (PyAny.someA x) = true ∧
      is_nothing PyAny.nothingA = true ∧
      is_ok (PyAny.okA x) = true ∧
      is_err (PyAny.errA x) = true ∧
      is_some PyAny.nothingA = false ∧
      is_some (PyAny.okA x) = false ∧
      is_some (PyAny.errA x) = false ∧
      is_some (PyAny.plainA w) = false ∧
      is_nothing (PyAny.someA x) = false ∧
      is_nothing (PyAny.okA x) = false ∧
      is_nothing (PyAny.errA x) = false ∧
      is_nothing (PyAny.plainA w) = false ∧
      is_ok (PyAny.someA x) = false ∧
      is_ok PyAny.nothingA = false ∧
      is_ok (PyAny.errA x) = false ∧
      is_ok (PyAny.plainA w) = false ∧
      is_err (PyAny.someA x) = false ∧
      is_err PyAny.nothingA = false ∧
      is_err (PyAny.okA x) = false ∧
      is_err (PyAny.plainA w) = false := by
  intro w x
  simp [is_some, is_nothing, is_ok, is_err]

/-- Claim C7, confirmed.  For every container value and caller-supplied
function handed to `and_then`/`map`/`apply`/`or_else`/`transform` (and
`map_err`), whenever the caller function raises an exception the combinator
call raises the very same exception object — the containers wrap nothing in
`try`, so nothing is intercepted, wrapped or substituted. -/
theorem C7_exception_transparency :
    ∀ (v : PyVal) (e : ExcObj) (m : MaybeV PyVal) (r : ResultV PyVal PyVal)
      (f : PyVal → Except ExcObj (MaybeV PyVal))
      (h : PyVal → Except ExcObj PyVal)
      (g : PyVal → Except ExcObj Unit)
      (k : Unit → Except ExcObj (MaybeV PyVal))
      (t : MaybeV PyVal → Except ExcObj PyVal)
      (rf : PyVal → Except ExcObj (ResultV PyVal PyVal))
      (rh : PyVal → Except ExcObj PyVal)
      (rg : PyVal → Except ExcObj Unit)
      (rk : PyVal → Except ExcObj (ResultV PyVal PyVal))
      (rt : ResultV PyVal PyVal → Except ExcObj PyVal),
      (f v = Except.error e →
        MaybeV.and_thenE (MaybeV.someV v) f = Except.error e) ∧
      (h v = Except.error e →
        MaybeV.mapE (MaybeV.someV v) h = Except.error e) ∧
      (g v = Except.error e →
        MaybeV.applyE (MaybeV.someV v) g = Except.error e) ∧
      (k () = Except.error e →
        MaybeV.or_elseE MaybeV.nothingV k = Except.error e) ∧
      (t m = Except.error e → MaybeV.transformE m t = Except.error e) ∧
      (rf v = Except.error e →
        ResultV.and_thenE (ResultV.okV v) rf = Except.error e) ∧
      (rh v = Except.error e →
        ResultV.mapE (ResultV.okV v : ResultV PyVal PyVal) rh
          = Except.error e) ∧
      (rg v = Except.error e →
        ResultV.applyE (ResultV.okV v : ResultV PyVal PyVal) rg
          = Except.error e) ∧
      (rh v = Except.error e →
        ResultV.map_errE (ResultV.errV v : ResultV PyVal PyVal) rh
          = Except.error e) ∧
      (rk v = Except.error e →
        ResultV.or_elseE (ResultV.errV v) rk = Except.error e) ∧
      (rt r = Except.error e → ResultV.transformE r rt = Except.error e) := by
  intro v e m r f h g k t rf rh rg rk rt
  refine ⟨fun hc => hc, ?_, ?_, fun hc => hc, fun hc => hc, fun hc => hc,
    ?_, ?_, ?_, fun hc => hc, fun hc => hc⟩
  · intro hc; simp [MaybeV.mapE, hc]
  · intro hc; simp [MaybeV.applyE, hc]
  · intro hc; simp [ResultV.mapE, hc]
  · intro hc; simp [ResultV.applyE, hc]
  · intro hc; simp [ResultV.map_errE, hc]

/-- Claim C7, witness: the theorem evaluated at concrete always-raising
caller functions, showing `Some(0).map(h)` and `Err(0).map_err(h)` raise
exactly the exception `h` raises. -/
theorem C7_exception_transparency_witness :
    MaybeV.mapE (MaybeV.someV (PyVal.vInt 0)) (alwaysRaiseVal eDemo)
      = Except.error eDemo ∧
    ResultV.map_errE (ResultV.errV (PyVal.vInt 0) : ResultV PyVal PyVal)
      (alwaysRaiseVal eDemo) = Except.error eDemo := by
  have h := C7_exception_transparency (PyVal.vInt 0) eDemo MaybeV.nothingV
    (ResultV.errV (PyVal.vInt 0)) (alwaysRaiseMaybe eDemo)
    (alwaysRaiseVal eDemo) (alwaysRaiseUnit eDemo)
    (fun _ => Except.ok MaybeV.nothingV) (fun _ => Except.ok PyVal.vNone)
    (fun _ => Except.ok (ResultV.okV PyVal.vNone)) (alwaysRaiseVal eDemo)
    (alwaysRaiseUnit eDemo) (fun _ => Except.ok (ResultV.okV PyVal.vNone))
    (fun _ => Except.ok PyVal.vNone)
  exact ⟨h.2.1 rfl, h.2.2.2.2.2.2.2.2.1 rfl⟩

/-- Claim C8, confirmed.  `from_optional(v)` is `Nothing()` exactly when `v`
is the sentinel `None` and `Some(v)` otherwise; `into_maybe` sends `Ok(v)`
to `Some(v)` and any failure to `Nothing()`, discarding the error payload;
`into_result` sends `Some(v)` to `Ok(v)` and the absent value to
`Err(None)` with the fixed `None` sentinel. -/
theorem C8_converters :
    ∀ (v x e : PyVal),
      from_optional PyVal.vNone = MaybeV.nothingV ∧
      (v ≠ PyVal.vNone → from_optional v = MaybeV.someV v) ∧
      into_maybe (ResultV.okV x : ResultV PyVal PyVal) = MaybeV.someV x ∧
      into_maybe (ResultV.errV e : ResultV PyVal PyVal) = MaybeV.nothingV ∧
      into_result (MaybeV.someV x : MaybeV PyVal) = ResultV.okV x ∧
      into_result (MaybeV.nothingV : MaybeV PyVal)
        = ResultV.errV PyVal.vNone := by
  intro v x e
  refine ⟨rfl, ?_, rfl, rfl, rfl, rfl⟩
  intro hv
  cases v with
  | vNone => exact absurd rfl hv
  | vInt n => rfl
  | vStr s => rfl
  | vBool b => rfl
  | vExc e2 => rfl

/-- Claim C8, witness: the converters evaluated at the values `3`, `None`
and an error payload. -/
theorem C8_converters_witness :
    from_optional (PyVal.vInt 3) = MaybeV.someV (PyVal.vInt 3) ∧
    from_optional PyVal.vNone = MaybeV.nothingV ∧
    into_result (MaybeV.nothingV : MaybeV PyVal)
      = ResultV.errV PyVal.vNone := by
  have h := C8_converters (PyVal.vInt 3) PyVal.vNone PyVal.vNone
  exact ⟨h.2.1 (by decide), h.1, h.2.2.2.2.2⟩

/-- Claim C9, confirmed.  Entering `Some(r)` (resp. `Ok(r)`) calls the
payload's `__enter__` exactly once — the event trace is the single acquire
event — and returns its result rewrapped as `Some` (resp. `Ok`); exiting
forwards exactly the received exit information to the payload's `__exit__`,
once, and returns its result.  Entering `Nothing()` (resp. `Err(e)`)
returns that same value with an empty event trace, and its exit performs no
release and returns `None`. -/
theorem C9_scoped_passthrough :
    ∀ (r : CMVal) (info : ExcInfo) (e : PyVal),
      maybeEnter (MaybeV.someV r)
        = (MaybeV.someV r.acquired, [CMEvent.acq]) ∧
      maybeExit (MaybeV.someV r) info
        = (r.exitRet info, [CMEvent.rel info]) ∧
      maybeEnter MaybeV.nothingV = (MaybeV.nothingV, []) ∧
      maybeExit MaybeV.nothingV info = (PyVal.vNone, []) ∧
      resultEnter (ResultV.okV r : ResultV CMVal PyVal)
        = (ResultV.okV r.acquired, [CMEvent.acq]) ∧
      resultExit (ResultV.okV r : ResultV CMVal PyVal) info
        = (r.exitRet info, [CMEvent.rel info]) ∧
      resultEnter (ResultV.errV e : ResultV CMVal PyVal)
        = (ResultV.errV e, []) ∧
      resultExit (ResultV.errV e : ResultV CMVal PyVal) info
        = (PyVal.vNone, []) := by
  intro r info e
  exact ⟨rfl, rfl, rfl, rfl, rfl, rfl, rfl, rfl⟩

/-- Claim C10, confirmed.  `into_maybe(into_result(m))` is structurally
equal to `m` for every Maybe value: `Some(v)` maps through `Ok(v)` back to
`Some(v)` and the absent value maps through `Err(None)` back to
`Nothing()`. -/
theorem C10_roundtrip :
    ∀ {α : Type} (m : MaybeV α), into_maybe (into_result m) = m := by
  intro α m
  cases m <;> rfl
